import Mathlib

/-!
Verification development for `python/dgl/nn/pytorch/graph_transformer.py`,
which defines two modules: `DegreeEncoder` and `BiasedMultiheadAttention`.

Tensors are shallowly embedded as total functions from natural-number
indices to real values; a tensor of shape `(d0, d1, d2)` is modelled as a
function `ℕ → ℕ → ℕ → ℝ` whose values outside the index ranges are junk.
Reshape and transpose operations become index arithmetic (row-major
flattening, exactly as PyTorch lays out contiguous tensors), batched
matrix products become `Finset.range` sums, and fallible operations
(constructor assertion, embedding lookup, the `direction` dispatch)
return `Except String`.
-/

open Finset

/-! ### Generic tensor index operations (torch `transpose` / `permute` / `reshape`) -/

/-- `x.transpose(0, 1)` on a 3-dimensional tensor. -/
def transpose3_01 {α : Type} (x : ℕ → ℕ → ℕ → α) : ℕ → ℕ → ℕ → α :=
  fun a b c => x b a c

/-- `x.transpose(0, 2)` on a 3-dimensional tensor. -/
def transpose3_02 {α : Type} (x : ℕ → ℕ → ℕ → α) : ℕ → ℕ → ℕ → α :=
  fun a b c => x c b a

/-- `x.transpose(0, 2)` on a 4-dimensional tensor. -/
def transpose4_02 {α : Type} (x : ℕ → ℕ → ℕ → ℕ → α) : ℕ → ℕ → ℕ → ℕ → α :=
  fun a b c d => x c b a d

/-- `x.permute(1, 2, 0)` on a 3-dimensional tensor. -/
def permute3_120 {α : Type} (x : ℕ → ℕ → ℕ → α) : ℕ → ℕ → ℕ → α :=
  fun a b c => x c a b

/-- Row-major `x.reshape(d0, d1 * hd, feat / hd)` restricted to the case used
in the source: a `(N, bsz, feat)` tensor reshaped to `(N, bsz * num_heads,
head_dim)`.  The leading dimension is unchanged, so entry `(a, b, c)` of the
result is entry `(a, flat / feat, flat % feat)` of the input with
`flat = b * head_dim + c` the flat offset inside row `a`. -/
def reshapeToHeads {α : Type} (feat head_dim : ℕ) (x : ℕ → ℕ → ℕ → α) :
    ℕ → ℕ → ℕ → α :=
  fun a b c => x a ((b * head_dim + c) / feat) ((b * head_dim + c) % feat)

/-- Row-major `x.reshape(N, bsz, feat)` applied to a `(N, bsz * num_heads,
head_dim)` tensor (the inverse direction of `reshapeToHeads`). -/
def reshapeFromHeads {α : Type} (feat head_dim : ℕ) (x : ℕ → ℕ → ℕ → α) :
    ℕ → ℕ → ℕ → α :=
  fun a b c => x a ((b * feat + c) / head_dim) ((b * feat + c) % head_dim)

/-- Row-major `x.reshape(N, N, bsz, num_heads)` applied to a `(N, N,
bsz * num_heads)` tensor: the last dimension is split. -/
def reshapeSplitLast {α : Type} (H : ℕ) (x : ℕ → ℕ → ℕ → α) :
    ℕ → ℕ → ℕ → ℕ → α :=
  fun a b c d => x a b (c * H + d)

/-- Row-major `x.reshape(N, N, bsz * num_heads)` applied to a `(N, N, bsz,
num_heads)` tensor: the last two dimensions are merged. -/
def reshapeMergeLast {α : Type} (H : ℕ) (x : ℕ → ℕ → ℕ → ℕ → α) :
    ℕ → ℕ → ℕ → α :=
  fun a b c => x a b (c / H) (c % H)

/-- `nn.Linear` applied to the last dimension: `y f = Σ_g x g * W f g + b f`
(PyTorch stores the weight as `(out_features, in_features)`). -/
noncomputable def linearT (W : ℕ → ℕ → ℝ) (bias : ℕ → ℝ) (in_features : ℕ)
    (x : ℕ → ℝ) : ℕ → ℝ :=
  fun f => (∑ g ∈ Finset.range in_features, x g * W f g) + bias f

/-! ### `BiasedMultiheadAttention` -/

/-- The learned state of a `BiasedMultiheadAttention` module as built by
`__init__` (lines 133-151): configuration plus the four linear projections.
Weight matrices are `(feat_size, feat_size)` functions and biases are
vectors; the random `reset_parameters` initialisation is external, so the
weights are plain data here. -/
structure BMHA where
  feat_size : ℕ
  num_heads : ℕ
  attn_bias_type : String
  attn_drop : ℝ
  Wq : ℕ → ℕ → ℝ
  bq : ℕ → ℝ
  Wk : ℕ → ℕ → ℝ
  bk : ℕ → ℝ
  Wv : ℕ → ℕ → ℝ
  bv : ℕ → ℝ
  Wo : ℕ → ℕ → ℝ
  bo : ℕ → ℝ

/-- `self.head_dim = feat_size // num_heads` (line 137). -/
def BMHA.head_dim (m : BMHA) : ℕ := m.feat_size / m.num_heads

/-- `self.scaling = self.head_dim ** -0.5` (line 141). -/
noncomputable def BMHA.scaling (m : BMHA) : ℝ :=
  (m.head_dim : ℝ) ^ (-(1 / 2) : ℝ)

/-- The constructor (lines 133-141): stores the configuration, asserts
`self.head_dim * num_heads == feat_size` (lines 138-140), and then computes
`self.scaling = self.head_dim ** -0.5` (line 141).  In Python, raising
`0.0` to a negative power is a `ZeroDivisionError`, so when the assert
passes with `head_dim == 0` (that is, `feat_size == 0` with a positive
`num_heads`) construction still fails, at line 141. -/
def BMHA.init (feat_size num_heads : ℕ) (attn_bias_type : String)
    (attn_drop : ℝ) (Wq : ℕ → ℕ → ℝ) (bq : ℕ → ℝ) (Wk : ℕ → ℕ → ℝ)
    (bk : ℕ → ℝ) (Wv : ℕ → ℕ → ℝ) (bv : ℕ → ℝ) (Wo : ℕ → ℕ → ℝ)
    (bo : ℕ → ℝ) : Except String BMHA :=
  if feat_size / num_heads * num_heads = feat_size then
    if feat_size / num_heads = 0 then
      .error "ZeroDivisionError: 0.0 cannot be raised to a negative power"
    else
      .ok ⟨feat_size, num_heads, attn_bias_type, attn_drop,
        Wq, bq, Wk, bk, Wv, bv, Wo, bo⟩
  else
    .error "feat_size must be divisible by num_heads"

/-- `self.scaling` equals `1 / sqrt head_dim`. -/
theorem BMHA.scaling_eq_inv_sqrt (m : BMHA) :
    m.scaling = (Real.sqrt m.head_dim)⁻¹ := by
  rw [BMHA.scaling, Real.rpow_neg (Nat.cast_nonneg _), Real.sqrt_eq_rpow]

/-- `self.q_proj(ndata).transpose(0, 1)` (line 184). -/
noncomputable def BMHA.q_t (m : BMHA) (ndata : ℕ → ℕ → ℕ → ℝ) :
    ℕ → ℕ → ℕ → ℝ :=
  transpose3_01 (fun b n => linearT m.Wq m.bq m.feat_size (ndata b n))

/-- `self.k_proj(ndata).transpose(0, 1)` (line 185). -/
noncomputable def BMHA.k_t (m : BMHA) (ndata : ℕ → ℕ → ℕ → ℝ) :
    ℕ → ℕ → ℕ → ℝ :=
  transpose3_01 (fun b n => linearT m.Wk m.bk m.feat_size (ndata b n))

/-- `self.v_proj(ndata).transpose(0, 1)` (line 186). -/
noncomputable def BMHA.v_t (m : BMHA) (ndata : ℕ → ℕ → ℕ → ℝ) :
    ℕ → ℕ → ℕ → ℝ :=
  transpose3_01 (fun b n => linearT m.Wv m.bv m.feat_size (ndata b n))

/-- Line 188:
`q_h = q_h.reshape(N, bsz * num_heads, head_dim).transpose(0, 1) / self.scaling`.
Note the source divides by `self.scaling`. -/
noncomputable def BMHA.q_h (m : BMHA) (ndata : ℕ → ℕ → ℕ → ℝ) :
    ℕ → ℕ → ℕ → ℝ :=
  fun c n d =>
    transpose3_01 (reshapeToHeads m.feat_size m.head_dim (m.q_t ndata)) c n d
      / m.scaling

/-- Line 189:
`k_h = k_h.reshape(N, bsz * num_heads, head_dim).permute(1, 2, 0)`. -/
noncomputable def BMHA.k_h (m : BMHA) (ndata : ℕ → ℕ → ℕ → ℝ) :
    ℕ → ℕ → ℕ → ℝ :=
  permute3_120 (reshapeToHeads m.feat_size m.head_dim (m.k_t ndata))

/-- Line 190:
`v_h = v_h.reshape(N, bsz * num_heads, head_dim).transpose(0, 1)`. -/
noncomputable def BMHA.v_h (m : BMHA) (ndata : ℕ → ℕ → ℕ → ℝ) :
    ℕ → ℕ → ℕ → ℝ :=
  transpose3_01 (reshapeToHeads m.feat_size m.head_dim (m.v_t ndata))

/-- `th.bmm(q_h, k_h)` (line 193): batched matrix product over the
`head_dim`-sized inner dimension. -/
noncomputable def BMHA.rawAttn (m : BMHA) (ndata : ℕ → ℕ → ℕ → ℝ) :
    ℕ → ℕ → ℕ → ℝ :=
  fun c i j => ∑ d ∈ Finset.range m.head_dim, m.q_h ndata c i d * m.k_h ndata c d j

/-- Lines 192-197: `th.bmm(q_h, k_h).transpose(0, 2).reshape(N, N, bsz,
num_heads).transpose(0, 2)`, giving attention scores laid out as
`(bsz, N, N, num_heads)`. -/
noncomputable def BMHA.attnScores (m : BMHA) (ndata : ℕ → ℕ → ℕ → ℝ) :
    ℕ → ℕ → ℕ → ℕ → ℝ :=
  transpose4_02 (reshapeSplitLast m.num_heads (transpose3_02 (m.rawAttn ndata)))

/-- Lines 199-203: optional bias combination, `attn_weights += attn_bias`
when `attn_bias_type == "add"`, else `attn_weights *= attn_bias`. -/
noncomputable def BMHA.biasedScores (m : BMHA) (ndata : ℕ → ℕ → ℕ → ℝ)
    (attn_bias : Option (ℕ → ℕ → ℕ → ℕ → ℝ)) : ℕ → ℕ → ℕ → ℕ → ℝ :=
  match attn_bias with
  | none => m.attnScores ndata
  | some ab =>
    if m.attn_bias_type = "add" then
      fun b q k h => m.attnScores ndata b q k h + ab b q k h
    else
      fun b q k h => m.attnScores ndata b q k h * ab b q k h

/-- Lines 205-206: `attn_weights[attn_mask.to(th.bool)] = float("-inf")`.
A float tensor holding `-inf` entries is modelled as `WithBot ℝ`, with `⊥`
standing for `-inf`; the boolean mask selects the entries whose value in
`attn_mask` is non-zero, across all heads. -/
noncomputable def BMHA.maskedScores (m : BMHA) (ndata : ℕ → ℕ → ℕ → ℝ)
    (attn_bias : Option (ℕ → ℕ → ℕ → ℕ → ℝ))
    (attn_mask : Option (ℕ → ℕ → ℕ → ℝ)) : ℕ → ℕ → ℕ → ℕ → WithBot ℝ :=
  match attn_mask with
  | none => fun b q k h => ((m.biasedScores ndata attn_bias b q k h : ℝ) : WithBot ℝ)
  | some msk => fun b q k h =>
      letI : Decidable (msk b q k ≠ 0) := Classical.dec _
      if msk b q k ≠ 0 then (⊥ : WithBot ℝ)
      else ((m.biasedScores ndata attn_bias b q k h : ℝ) : WithBot ℝ)

/-- `exp` extended to `-inf`: `exp (-inf) = 0`, which is how IEEE floats
behave inside `F.softmax`. -/
noncomputable def expExt (x : WithBot ℝ) : ℝ :=
  WithBot.recBotCoe 0 Real.exp x

/-- `F.softmax(x, dim=2)` on a `(bsz * num_heads, N, N)` tensor whose last
dimension ranges over `N` key positions. -/
noncomputable def softmaxDim2 (N : ℕ) (x : ℕ → ℕ → ℕ → WithBot ℝ) :
    ℕ → ℕ → ℕ → ℝ :=
  fun c q k => expExt (x c q k) / ∑ j ∈ Finset.range N, expExt (x c q j)

/-- Lines 208-213: transpose/reshape the masked scores back to
`(bsz * num_heads, N, N)` and apply softmax over the key dimension. -/
noncomputable def BMHA.attnProbs (m : BMHA) (N : ℕ) (ndata : ℕ → ℕ → ℕ → ℝ)
    (attn_bias : Option (ℕ → ℕ → ℕ → ℕ → ℝ))
    (attn_mask : Option (ℕ → ℕ → ℕ → ℝ)) : ℕ → ℕ → ℕ → ℝ :=
  softmaxDim2 N
    (transpose3_02 (reshapeMergeLast m.num_heads
      (transpose4_02 (m.maskedScores ndata attn_bias attn_mask))))

/-- `self.dropout` (line 215): `nn.Dropout(p)` zeroes each element whose
Bernoulli keep-draw failed and rescales the rest by `1 / (1 - p)` in
training mode, and is the identity in evaluation mode.  The random draw is
passed in explicitly as `keep`. -/
noncomputable def dropoutT (p : ℝ) (training : Bool)
    (keep : ℕ → ℕ → ℕ → Bool) (x : ℕ → ℕ → ℕ → ℝ) : ℕ → ℕ → ℕ → ℝ :=
  if training then
    fun a b c => if keep a b c then x a b c / (1 - p) else 0
  else x

/-- Line 217: `attn = th.bmm(attn_weights, v_h).transpose(0, 1)`. -/
noncomputable def BMHA.attnContext (m : BMHA) (N : ℕ) (ndata : ℕ → ℕ → ℕ → ℝ)
    (attn_bias : Option (ℕ → ℕ → ℕ → ℕ → ℝ))
    (attn_mask : Option (ℕ → ℕ → ℕ → ℝ)) (training : Bool)
    (keep : ℕ → ℕ → ℕ → Bool) : ℕ → ℕ → ℕ → ℝ :=
  transpose3_01 (fun c q d =>
    ∑ j ∈ Finset.range N,
      dropoutT m.attn_drop training keep
        (m.attnProbs N ndata attn_bias attn_mask) c q j * m.v_h ndata c j d)

/-- Lines 184-221, `BiasedMultiheadAttention.forward`: the full pipeline,
ending with
`attn = self.out_proj(attn.reshape(N, bsz, feat_size).transpose(0, 1))`
(line 219).  The result is laid out as `(bsz, N, feat_size)`. -/
noncomputable def BMHA.forward (m : BMHA) (N : ℕ) (ndata : ℕ → ℕ → ℕ → ℝ)
    (attn_bias : Option (ℕ → ℕ → ℕ → ℕ → ℝ))
    (attn_mask : Option (ℕ → ℕ → ℕ → ℝ)) (training : Bool)
    (keep : ℕ → ℕ → ℕ → Bool) : ℕ → ℕ → ℕ → ℝ :=
  fun b n f =>
    linearT m.Wo m.bo m.feat_size
      (transpose3_01 (reshapeFromHeads m.feat_size m.head_dim
        (m.attnContext N ndata attn_bias attn_mask training keep)) b n) f

/-- The "standard scaled dot-product attention" query scaling described by
the module docstring (`softmax(QK^T / sqrt(d))`) and the specification:
the reshaped query is multiplied by `1 / sqrt(head_dim)` (that is, by
`self.scaling`), instead of being divided by it as on source line 188.
This definition follows the specification's words and exists to be
compared against `BMHA.q_h`. -/
noncomputable def specScaledQuery (m : BMHA) (ndata : ℕ → ℕ → ℕ → ℝ) :
    ℕ → ℕ → ℕ → ℝ :=
  fun c n d =>
    transpose3_01 (reshapeToHeads m.feat_size m.head_dim (m.q_t ndata)) c n d
      * m.scaling

/-! ### Storage-footprint model of `BiasedMultiheadAttention.forward`

For the frame property (the inputs `ndata`, `attn_bias`, `attn_mask` are
not mutated even though `forward` uses the in-place operators `+=`, `*=`
and boolean-mask assignment) we track which tensor storages each operation
touches.  PyTorch semantics used: `nn.Linear`, `th.bmm`, `F.softmax`,
`Tensor.to`, `nn.Dropout` and non-assigning arithmetic (`/`) allocate a
fresh storage; `transpose`, `permute` and `reshape` at most alias their
argument's storage (`reshape` may copy; treating it as aliasing is the
conservative choice for this property); `+=`, `*=` and indexed assignment
write in place to the left-hand side's storage. -/

/-- Allocation state: the next fresh storage id and the ids written in
place so far.  The three inputs hold storages `0` (`ndata`), `1`
(`attn_bias`) and `2` (`attn_mask`); fresh ids start at `3`. -/
structure AliasState where
  next : ℕ
  written : List ℕ

/-- Allocate a fresh storage. -/
def allocStorage (s : AliasState) : ℕ × AliasState :=
  (s.next, ⟨s.next + 1, s.written⟩)

/-- Record an in-place write to storage `t`. -/
def writeStorage (t : ℕ) (s : AliasState) : AliasState :=
  ⟨s.next, t :: s.written⟩

/-- The storage footprint of `BiasedMultiheadAttention.forward`
(lines 184-221), one step per source line that touches a tensor storage.
`hasBias` and `hasMask` select the optional branches at lines 199 and
205. -/
def bmhaStorageTrace (hasBias hasMask : Bool) : AliasState :=
  let s0 : AliasState := ⟨3, []⟩
  -- lines 184-186: q_proj/k_proj/v_proj allocate; transpose(0, 1) aliases
  let (_qp, s1) := allocStorage s0
  let (_kp, s2) := allocStorage s1
  let (_vp, s3) := allocStorage s2
  -- line 188: reshape/transpose alias `_qp`; the division allocates
  let (_qh, s4) := allocStorage s3
  -- lines 189-190: reshape/permute/transpose alias `_kp`, `_vp`
  -- lines 192-197: th.bmm allocates; transpose/reshape/transpose alias it
  let (aw, s5) := allocStorage s4
  -- lines 199-203: `attn_weights += attn_bias` or `*=` writes `aw` in place
  let s6 := if hasBias then writeStorage aw s5 else s5
  -- lines 205-206: `attn_mask.to(th.bool)` allocates;
  -- `attn_weights[...] = -inf` writes `aw` in place
  let s7 :=
    if hasMask then
      let (_mb, s6a) := allocStorage s6
      writeStorage aw s6a
    else s6
  -- lines 208-213: transpose/reshape alias `aw`; F.softmax allocates
  let (_sm, s8) := allocStorage s7
  -- line 215: dropout allocates
  let (_dp, s9) := allocStorage s8
  -- line 217: th.bmm allocates; transpose aliases
  let (_ctx, s10) := allocStorage s9
  -- line 219: reshape/transpose alias; out_proj allocates
  let (_y, s11) := allocStorage s10
  s11

/-! ### `DegreeEncoder` -/

/-- `th.clamp(x, min=lo, max=hi)`, elementwise on integer degree tensors. -/
def clampInt (lo hi x : ℤ) : ℤ := max lo (min x hi)

/-- An `nn.Embedding(num_embeddings, embedding_dim)` table.  Rows are
functions `ℕ → ℝ`; only the first `num_embeddings` rows are addressable
(an index at or beyond `num_embeddings` is a runtime lookup error). -/
structure EmbeddingT where
  num_embeddings : ℕ
  weight : ℕ → ℕ → ℝ

/-- `nn.Embedding(num, dim, padding_idx=0)` built from externally supplied
initial weights `w`: construction zeroes the padding row `0`, and training
never updates it, so a freshly initialised table always has `weight 0 = 0`. -/
def EmbeddingT.init (num : ℕ) (w : ℕ → ℕ → ℝ) : EmbeddingT :=
  ⟨num, fun i j => if i = 0 then 0 else w i j⟩

/-- Embedding lookup on a batch of `n` indices (one per node): PyTorch
raises if any index is out of range, otherwise gathers the rows. -/
def EmbeddingT.lookupVec (e : EmbeddingT) (n : ℕ) (idx : ℕ → ℕ) :
    Except String (ℕ → ℕ → ℝ) :=
  if ∀ i ∈ Finset.range n, idx i < e.num_embeddings then
    .ok fun i => e.weight (idx i)
  else
    .error "index out of range in self"

/-- A homogeneous `DGLGraph`, reduced to the interface `DegreeEncoder.forward`
uses: the node count and the per-node in/out degree queries (degrees of a
graph are natural numbers; DGL returns them as an integer tensor). -/
structure DGraph where
  numNodes : ℕ
  in_degrees : ℕ → ℕ
  out_degrees : ℕ → ℕ

/-- The state of a `DegreeEncoder` as built by `__init__` (lines 39-53):
`direction == "both"` creates `degree_encoder_1` and `degree_encoder_2`,
any other direction creates the single `degree_encoder`; absent attributes
are `none`. -/
structure DegreeEncoder where
  direction : String
  max_degree : ℕ
  degree_encoder_1 : Option EmbeddingT
  degree_encoder_2 : Option EmbeddingT
  degree_encoder : Option EmbeddingT

/-- `DegreeEncoder.__init__(max_degree, embedding_dim, direction)`
(lines 39-53).  The embedding tables have `max_degree + 1` rows; their raw
initial weights (`w1`, `w2` for the `"both"` tables, `w` otherwise) are
external random data.  No validation of `direction` happens here. -/
def DegreeEncoder.init (max_degree : ℕ) (direction : String)
    (w1 w2 w : ℕ → ℕ → ℝ) : DegreeEncoder :=
  if direction = "both" then
    { direction := direction, max_degree := max_degree
      degree_encoder_1 := some (EmbeddingT.init (max_degree + 1) w1)
      degree_encoder_2 := some (EmbeddingT.init (max_degree + 1) w2)
      degree_encoder := none }
  else
    { direction := direction, max_degree := max_degree
      degree_encoder_1 := none, degree_encoder_2 := none
      degree_encoder := some (EmbeddingT.init (max_degree + 1) w) }

/-- The `ValueError` message of lines 82-85. -/
def degreeDirectionError (direction : String) : String :=
  "Supported direction options: in, out and both, but got " ++ direction

/-- `DegreeEncoder.forward(g)` (lines 55-87): clamp the in/out degrees into
`[0, max_degree]` (lines 71-72), then dispatch on `self.direction`
(lines 74-85).  Accessing a table the constructor did not create is a
Python `AttributeError`; an unrecognised direction raises `ValueError`.
The heterogeneous-graph collapse of lines 69-70 is the identity here since
`DGraph` is already homogeneous. -/
def DegreeEncoder.forward (m : DegreeEncoder) (g : DGraph) :
    Except String (ℕ → ℕ → ℝ) :=
  let in_degree := fun i => clampInt 0 (m.max_degree : ℤ) (g.in_degrees i : ℤ)
  let out_degree := fun i => clampInt 0 (m.max_degree : ℤ) (g.out_degrees i : ℤ)
  if m.direction = "in" then
    match m.degree_encoder with
    | some e => e.lookupVec g.numNodes fun i => (in_degree i).toNat
    | none => .error "AttributeError: degree_encoder"
  else if m.direction = "out" then
    match m.degree_encoder with
    | some e => e.lookupVec g.numNodes fun i => (out_degree i).toNat
    | none => .error "AttributeError: degree_encoder"
  else if m.direction = "both" then
    match m.degree_encoder_1, m.degree_encoder_2 with
    | some e1, some e2 =>
      match e1.lookupVec g.numNodes (fun i => (in_degree i).toNat),
            e2.lookupVec g.numNodes (fun i => (out_degree i).toNat) with
      | .ok y1, .ok y2 => .ok fun i j => y1 i j + y2 i j
      | .error s, _ => .error s
      | _, .error s => .error s
    | _, _ => .error "AttributeError: degree_encoder_1"
  else
    .error (degreeDirectionError m.direction)

/-! ### Concrete instances used in closed statements -/

/-- An all-zero weight matrix. -/
def zeroW : ℕ → ℕ → ℝ := fun _ _ => 0

/-- An all-zero bias vector. -/
def zeroV : ℕ → ℝ := fun _ => 0

/-- A nowhere-zero embedding weight table. -/
def wEx : ℕ → ℕ → ℝ := fun i j => (i : ℝ) + (j : ℝ) + 1

/-- A one-node graph with no edges. -/
def g0 : DGraph := ⟨1, fun _ => 0, fun _ => 0⟩

/-- A four-node graph: node `0` has in-degree 2 and out-degree 9. -/
def g1 : DGraph := ⟨4, fun i => if i = 0 then 2 else 1, fun i => if i = 0 then 9 else 0⟩

/-- A weight matrix whose only non-zero entry is a `1` at `(0, 0)`. -/
def e00 : ℕ → ℕ → ℝ := fun f g => if f = 0 ∧ g = 0 then 1 else 0

/-- A `BiasedMultiheadAttention` with `feat_size = 4`, `num_heads = 1`
(so `head_dim = 4` and `scaling = 1/2`), whose query projection picks out
coordinate `0`. -/
def M1 : BMHA :=
  ⟨4, 1, "add", 0, e00, zeroV, zeroW, zeroV, zeroW, zeroV, zeroW, zeroV⟩

/-- Node data whose feature vector is the first standard basis vector. -/
def ndata1 : ℕ → ℕ → ℕ → ℝ := fun _ _ g => if g = 0 then 1 else 0

/-- A mask marking key position `0` invalid (non-zero) and the rest valid. -/
def msk1 : ℕ → ℕ → ℕ → ℝ := fun _ _ k => if k = 0 then 1 else 0

/-- A `BiasedMultiheadAttention` with `feat_size = 8`, `num_heads = 2`,
`attn_drop = 0`, all-zero weights: the configuration of the end-to-end
example in the specification. -/
def M8 : BMHA :=
  ⟨8, 2, "add", 0, zeroW, zeroV, zeroW, zeroV, zeroW, zeroV, zeroW, zeroV⟩

/-- An all-zero 3-dimensional tensor. -/
def zeroT3 : ℕ → ℕ → ℕ → ℝ := fun _ _ _ => 0

/-- An all-zero 4-dimensional tensor (the `(2, 4, 4, 2)` all-zero
`attn_bias` of the end-to-end example). -/
def zeroT4 : ℕ → ℕ → ℕ → ℕ → ℝ := fun _ _ _ _ => 0

/-- A dropout randomness draw keeping every element. -/
def keepAll : ℕ → ℕ → ℕ → Bool := fun _ _ _ => true

/-- A dropout randomness draw keeping no element. -/
def keepNone : ℕ → ℕ → ℕ → Bool := fun _ _ _ => false

/-! ### Lemmas about `DegreeEncoder` -/

/-- Clamping with lower bound `0` yields a non-negative value. -/
lemma clampInt_nonneg (hi x : ℤ) : 0 ≤ clampInt 0 hi x := le_max_left _ _

/-- Clamping into `[0, max_degree]` stays at or below `max_degree`. -/
lemma clampInt_le (maxd : ℕ) (x : ℤ) : clampInt 0 (maxd : ℤ) x ≤ (maxd : ℤ) :=
  max_le (Int.ofNat_nonneg _) (min_le_right _ _)

/-- The clamped degree, as a lookup index, is inside a
`(max_degree + 1)`-row table. -/
lemma clampInt_toNat_lt (maxd : ℕ) (x : ℤ) :
    (clampInt 0 (maxd : ℤ) x).toNat < maxd + 1 :=
  Nat.lt_succ_of_le (Int.toNat_le.mpr (clampInt_le maxd x))

/-- A degree of `0` clamps to `0`. -/
lemma clampInt_zero (maxd : ℕ) : clampInt 0 (maxd : ℤ) ((0 : ℕ) : ℤ) = 0 := by
  unfold clampInt
  rw [Nat.cast_zero, min_eq_left (Int.ofNat_nonneg maxd), max_self]

/-- The padding row of a freshly initialised embedding table is zero. -/
lemma EmbeddingT.init_weight_zero (num : ℕ) (w : ℕ → ℕ → ℝ) (j : ℕ) :
    (EmbeddingT.init num w).weight 0 j = 0 := by
  simp [EmbeddingT.init]

/-- Looking a batch of clamped degrees up in a freshly built
`(max_degree + 1)`-row table always succeeds. -/
lemma EmbeddingT.lookupVec_clamped_ok (maxd n : ℕ) (w : ℕ → ℕ → ℝ)
    (deg : ℕ → ℕ) :
    (EmbeddingT.init (maxd + 1) w).lookupVec n
      (fun i => (clampInt 0 (maxd : ℤ) (deg i : ℤ)).toNat) =
    .ok fun i => (EmbeddingT.init (maxd + 1) w).weight
      ((clampInt 0 (maxd : ℤ) (deg i : ℤ)).toNat) := by
  unfold EmbeddingT.lookupVec EmbeddingT.init
  rw [if_pos]
  intro i _
  exact clampInt_toNat_lt maxd _

/-- `forward` on a module built with `direction = "in"`. -/
lemma DegreeEncoder.forward_init_in (maxd : ℕ) (w1 w2 w : ℕ → ℕ → ℝ)
    (g : DGraph) :
    (DegreeEncoder.init maxd "in" w1 w2 w).forward g =
      .ok fun i j => (EmbeddingT.init (maxd + 1) w).weight
        ((clampInt 0 (maxd : ℤ) (g.in_degrees i : ℤ)).toNat) j := by
  simp [DegreeEncoder.init, DegreeEncoder.forward, EmbeddingT.lookupVec_clamped_ok]

/-- `forward` on a module built with `direction = "out"`. -/
lemma DegreeEncoder.forward_init_out (maxd : ℕ) (w1 w2 w : ℕ → ℕ → ℝ)
    (g : DGraph) :
    (DegreeEncoder.init maxd "out" w1 w2 w).forward g =
      .ok fun i j => (EmbeddingT.init (maxd + 1) w).weight
        ((clampInt 0 (maxd : ℤ) (g.out_degrees i : ℤ)).toNat) j := by
  simp [DegreeEncoder.init, DegreeEncoder.forward, EmbeddingT.lookupVec_clamped_ok]

/-- `forward` on a module built with `direction = "both"`. -/
lemma DegreeEncoder.forward_init_both (maxd : ℕ) (w1 w2 w : ℕ → ℕ → ℝ)
    (g : DGraph) :
    (DegreeEncoder.init maxd "both" w1 w2 w).forward g =
      .ok fun i j =>
        (EmbeddingT.init (maxd + 1) w1).weight
          ((clampInt 0 (maxd : ℤ) (g.in_degrees i : ℤ)).toNat) j +
        (EmbeddingT.init (maxd + 1) w2).weight
          ((clampInt 0 (maxd : ℤ) (g.out_degrees i : ℤ)).toNat) j := by
  simp [DegreeEncoder.init, DegreeEncoder.forward, EmbeddingT.lookupVec_clamped_ok]

/-- `forward` on a module built with an unrecognised direction raises the
`ValueError` of lines 82-85. -/
lemma DegreeEncoder.forward_init_unrecognized (maxd : ℕ)
    (w1 w2 w : ℕ → ℕ → ℝ) (g : DGraph) (dir : String)
    (h : ¬(dir = "in" ∨ dir = "out" ∨ dir = "both")) :
    (DegreeEncoder.init maxd dir w1 w2 w).forward g =
      .error (degreeDirectionError dir) := by
  have h1 : ¬(dir = "in") := fun hb => h (Or.inl hb)
  have h2 : ¬(dir = "out") := fun hb => h (Or.inr (Or.inl hb))
  have h3 : ¬(dir = "both") := fun hb => h (Or.inr (Or.inr hb))
  unfold DegreeEncoder.init
  rw [if_neg h3]
  unfold DegreeEncoder.forward
  dsimp only
  rw [if_neg h1, if_neg h2, if_neg h3]

/-! ### Claim theorems about `DegreeEncoder` and the attention constructor -/

/-- C3 counterexample: at `feat_size = 0, num_heads = 3` the divisibility
holds (`3 ∣ 0`, `num_heads > 0`), yet construction does not succeed: the
assert of lines 138-140 passes with `head_dim = 0` and line 141 then
raises `ZeroDivisionError` computing `0 ** -0.5`.  This refutes the
claim's "construction succeeds whenever num_heads divides feat_size". -/
theorem bmha_init_zero_feat_size_counterexample :
    (3 ∣ 0) ∧ 0 < 3 ∧
    (BMHA.init 0 3 "add" 0 zeroW zeroV zeroW zeroV zeroW zeroV zeroW
      zeroV).toOption.isSome = false ∧
    BMHA.init 0 3 "add" 0 zeroW zeroV zeroW zeroV zeroW zeroV zeroW zeroV =
      .error "ZeroDivisionError: 0.0 cannot be raised to a negative power" :=
  ⟨⟨0, rfl⟩, by norm_num, rfl, rfl⟩

/-- C3 (amended): constructing `BiasedMultiheadAttention` with `feat_size`
not evenly divisible by `num_heads` (with `num_heads > 0`) fails the
constructor assertion, and construction succeeds exactly when `num_heads`
divides `feat_size` and `feat_size` is positive (at `feat_size = 0` the
scaling computation of line 141 raises `ZeroDivisionError`). -/
theorem bmha_init_divisibility_amended (f n : ℕ) (tp : String) (dp : ℝ)
    (W1 W2 W3 W4 : ℕ → ℕ → ℝ) (b1 b2 b3 b4 : ℕ → ℝ) (hn : 0 < n) :
    (BMHA.init f n tp dp W1 b1 W2 b2 W3 b3 W4 b4).toOption.isSome = true ↔
      (n ∣ f ∧ 0 < f) := by
  unfold BMHA.init
  by_cases h : f / n * n = f
  · rw [if_pos h]
    by_cases h0 : f / n = 0
    · rw [if_pos h0]
      simp only [Except.toOption, Option.isSome_none, Bool.false_eq_true,
        false_iff]
      rintro ⟨_, hf⟩
      rw [h0, zero_mul] at h
      omega
    · rw [if_neg h0]
      simp only [Except.toOption, Option.isSome_some, true_iff]
      refine ⟨⟨f / n, h.symm.trans (mul_comm _ _)⟩, ?_⟩
      have hpos : 0 < f / n * n := Nat.mul_pos (Nat.pos_of_ne_zero h0) hn
      omega
  · rw [if_neg h]
    simp only [Except.toOption, Option.isSome_none, Bool.false_eq_true,
      false_iff]
    rintro ⟨hd, _⟩
    exact h (Nat.div_mul_cancel hd)

/-- C3 witness: `feat_size = 10, num_heads = 3` errors, while
`feat_size = 8, num_heads = 2` succeeds. -/
theorem bmha_init_divisibility_amended_witness :
    (BMHA.init 10 3 "add" 0 zeroW zeroV zeroW zeroV zeroW zeroV zeroW
      zeroV).toOption.isSome = false ∧
    (BMHA.init 8 2 "add" 0 zeroW zeroV zeroW zeroV zeroW zeroV zeroW
      zeroV).toOption.isSome = true := by
  constructor
  · have h := bmha_init_divisibility_amended 10 3 "add" 0 zeroW zeroW zeroW
      zeroW zeroV zeroV zeroV zeroV (by norm_num)
    exact Bool.eq_false_iff.mpr fun ht => absurd (h.mp ht).1 (by decide)
  · exact (bmha_init_divisibility_amended 8 2 "add" 0 zeroW zeroW zeroW
      zeroW zeroV zeroV zeroV zeroV (by norm_num)).mpr
      ⟨by decide, by decide⟩

/-- C4: `DegreeEncoder.forward` with `direction = "both"` returns the
elementwise sum of the results of `forward` with `direction = "in"` and
with `direction = "out"` on the same graph, when the `"in"` module carries
the `"both"` module's first table and the `"out"` module its second. -/
theorem degree_encoder_both_eq_in_add_out (maxd : ℕ)
    (wIn wOut wj : ℕ → ℕ → ℝ) (g : DGraph) :
    ∃ y1 y2 : ℕ → ℕ → ℝ,
      (DegreeEncoder.init maxd "in" wj wj wIn).forward g = .ok y1 ∧
      (DegreeEncoder.init maxd "out" wj wj wOut).forward g = .ok y2 ∧
      (DegreeEncoder.init maxd "both" wIn wOut wj).forward g =
        .ok fun i j => y1 i j + y2 i j := by
  exact ⟨_, _, DegreeEncoder.forward_init_in maxd wj wj wIn g,
    DegreeEncoder.forward_init_out maxd wj wj wOut g,
    DegreeEncoder.forward_init_both maxd wIn wOut wj g⟩

/-- C5: for every graph, the clamped in- and out-degrees used as embedding
lookup indices in `DegreeEncoder.forward` lie in `[0, max_degree]`, and the
lookup into the `(max_degree + 1)`-row table always succeeds. -/
theorem degree_encoder_clamped_degree_in_range (maxd : ℕ) (g : DGraph)
    (i : ℕ) (w : ℕ → ℕ → ℝ) :
    0 ≤ clampInt 0 (maxd : ℤ) (g.in_degrees i : ℤ) ∧
    clampInt 0 (maxd : ℤ) (g.in_degrees i : ℤ) ≤ (maxd : ℤ) ∧
    0 ≤ clampInt 0 (maxd : ℤ) (g.out_degrees i : ℤ) ∧
    clampInt 0 (maxd : ℤ) (g.out_degrees i : ℤ) ≤ (maxd : ℤ) ∧
    ((EmbeddingT.init (maxd + 1) w).lookupVec g.numNodes
      (fun k => (clampInt 0 (maxd : ℤ) (g.in_degrees k : ℤ)).toNat)).toOption.isSome
      = true ∧
    ((EmbeddingT.init (maxd + 1) w).lookupVec g.numNodes
      (fun k => (clampInt 0 (maxd : ℤ) (g.out_degrees k : ℤ)).toNat)).toOption.isSome
      = true := by
  refine ⟨clampInt_nonneg _ _, clampInt_le _ _, clampInt_nonneg _ _,
    clampInt_le _ _, ?_, ?_⟩
  · rw [EmbeddingT.lookupVec_clamped_ok]
    rfl
  · rw [EmbeddingT.lookupVec_clamped_ok]
    rfl

/-- C6: for a freshly initialised `DegreeEncoder` (padding row zeroed by
`padding_idx=0`), the output row of a node whose clamped degree is `0` is
the zero vector, for each recognised direction; with `direction = "both"`
it is the sum of the two zero padding rows. -/
theorem degree_encoder_zero_degree_zero_vector (maxd : ℕ)
    (w1 w2 w : ℕ → ℕ → ℝ) (g : DGraph) (i : ℕ) (dir : String)
    (hdir : dir = "in" ∧ g.in_degrees i = 0 ∨
            dir = "out" ∧ g.out_degrees i = 0 ∨
            dir = "both" ∧ g.in_degrees i = 0 ∧ g.out_degrees i = 0) :
    ∃ y : ℕ → ℕ → ℝ,
      (DegreeEncoder.init maxd dir w1 w2 w).forward g = .ok y ∧
      ∀ j, y i j = 0 := by
  rcases hdir with ⟨hd, h0⟩ | ⟨hd, h0⟩ | ⟨hd, h0, h0'⟩
  · subst hd
    refine ⟨_, DegreeEncoder.forward_init_in maxd w1 w2 w g, fun j => ?_⟩
    rw [h0, clampInt_zero, Int.toNat_zero, EmbeddingT.init_weight_zero]
  · subst hd
    refine ⟨_, DegreeEncoder.forward_init_out maxd w1 w2 w g, fun j => ?_⟩
    rw [h0, clampInt_zero, Int.toNat_zero, EmbeddingT.init_weight_zero]
  · subst hd
    refine ⟨_, DegreeEncoder.forward_init_both maxd w1 w2 w g, fun j => ?_⟩
    rw [h0, h0', clampInt_zero, Int.toNat_zero, EmbeddingT.init_weight_zero,
      EmbeddingT.init_weight_zero, add_zero]

/-- C6 witness: on a one-node edgeless graph, a `"both"` encoder with
`max_degree = 5` and nowhere-zero raw weights outputs the zero vector for
node `0`. -/
theorem degree_encoder_zero_degree_zero_vector_witness :
    ∃ y : ℕ → ℕ → ℝ,
      (DegreeEncoder.init 5 "both" wEx wEx wEx).forward g0 = .ok y ∧
      ∀ j, y 0 j = 0 :=
  degree_encoder_zero_degree_zero_vector 5 wEx wEx wEx g0 0 "both"
    (Or.inr (Or.inr ⟨rfl, rfl, rfl⟩))

/-- C7: `DegreeEncoder.forward` succeeds exactly when the configured
direction is one of `"in"`, `"out"`, `"both"`; for any other direction it
raises the `ValueError` of lines 82-85 and returns no result. -/
theorem degree_encoder_forward_direction_errors (maxd : ℕ)
    (w1 w2 w : ℕ → ℕ → ℝ) (g : DGraph) (dir : String) :
    (((DegreeEncoder.init maxd dir w1 w2 w).forward g).toOption.isSome = true
      ↔ (dir = "in" ∨ dir = "out" ∨ dir = "both")) ∧
    (¬(dir = "in" ∨ dir = "out" ∨ dir = "both") →
      (DegreeEncoder.init maxd dir w1 w2 w).forward g =
        .error (degreeDirectionError dir)) := by
  by_cases hrec : dir = "in" ∨ dir = "out" ∨ dir = "both"
  · refine ⟨⟨fun _ => hrec, fun _ => ?_⟩, fun hnot => absurd hrec hnot⟩
    rcases hrec with hd | hd | hd <;> subst hd
    · rw [DegreeEncoder.forward_init_in]
      rfl
    · rw [DegreeEncoder.forward_init_out]
      rfl
    · rw [DegreeEncoder.forward_init_both]
      rfl
  · refine ⟨?_, fun _ => DegreeEncoder.forward_init_unrecognized maxd w1 w2 w
      g dir hrec⟩
    rw [DegreeEncoder.forward_init_unrecognized maxd w1 w2 w g dir hrec]
    simp only [Except.toOption, Option.isSome_none, Bool.false_eq_true,
      false_iff]
    exact hrec

/-- C10: constructing a `DegreeEncoder` with an unrecognised direction
succeeds, creating the single `degree_encoder` table exactly as for a
non-`"both"` direction (and neither `"both"` table); the
invalid-configuration `ValueError` is only raised by `forward`. -/
theorem degree_encoder_init_lazy_direction_check (maxd : ℕ)
    (w1 w2 w : ℕ → ℕ → ℝ) (g : DGraph) (dir : String)
    (h : ¬(dir = "in" ∨ dir = "out" ∨ dir = "both")) :
    (DegreeEncoder.init maxd dir w1 w2 w).degree_encoder =
      some (EmbeddingT.init (maxd + 1) w) ∧
    (DegreeEncoder.init maxd dir w1 w2 w).degree_encoder_1 = none ∧
    (DegreeEncoder.init maxd dir w1 w2 w).degree_encoder_2 = none ∧
    (DegreeEncoder.init maxd dir w1 w2 w).forward g =
      .error (degreeDirectionError dir) := by
  have h3 : ¬(dir = "both") := fun hb => h (Or.inr (Or.inr hb))
  refine ⟨?_, ?_, ?_, DegreeEncoder.forward_init_unrecognized maxd w1 w2 w g
    dir h⟩ <;>
    · unfold DegreeEncoder.init
      rw [if_neg h3]

/-- C10 witness: direction `"backward"` constructs fine with a single
table, and `forward` then raises the `ValueError`. -/
theorem degree_encoder_init_lazy_direction_check_witness :
    (DegreeEncoder.init 5 "backward" wEx wEx wEx).degree_encoder =
      some (EmbeddingT.init 6 wEx) ∧
    (DegreeEncoder.init 5 "backward" wEx wEx wEx).degree_encoder_1 = none ∧
    (DegreeEncoder.init 5 "backward" wEx wEx wEx).degree_encoder_2 = none ∧
    (DegreeEncoder.init 5 "backward" wEx wEx wEx).forward g0 =
      .error (degreeDirectionError "backward") :=
  degree_encoder_init_lazy_direction_check 5 wEx wEx wEx g0 "backward"
    (by decide)

/-! ### Claim theorems about `BiasedMultiheadAttention.forward` -/

/-- `exp` extended to `-inf` vanishes at `-inf`. -/
lemma expExt_bot : expExt ⊥ = 0 := rfl

/-- `M1` has `head_dim = 4`. -/
lemma M1_head_dim : M1.head_dim = 4 := rfl

/-- `M1` has `scaling = 1/2`. -/
lemma M1_scaling : M1.scaling = 1 / 2 := by
  rw [BMHA.scaling_eq_inv_sqrt, M1_head_dim]
  rw [show ((4 : ℕ) : ℝ) = 2 ^ 2 by norm_num,
    Real.sqrt_sq (by norm_num : (0 : ℝ) ≤ 2)]
  norm_num

/-- The reshaped query entry of `M1` on `ndata1`, before any scaling. -/
lemma M1_raw_query :
    transpose3_01 (reshapeToHeads M1.feat_size M1.head_dim (M1.q_t ndata1))
      0 0 0 = 1 := by
  show M1.q_t ndata1 0 ((0 * M1.head_dim + 0) / M1.feat_size)
    ((0 * M1.head_dim + 0) % M1.feat_size) = 1
  show linearT M1.Wq M1.bq M1.feat_size (ndata1 0 0) 0 = 1
  unfold linearT
  show (∑ g ∈ Finset.range 4, ndata1 0 0 g * e00 0 g) + zeroV 0 = 1
  simp [Finset.sum_range_succ, ndata1, e00, zeroV]

/-- C1: the claim that the query is scaled by `1 / sqrt(head_dim)` fails on
the code: line 188 *divides* by `self.scaling = head_dim ** -0.5`, so the
query is multiplied by `sqrt(head_dim)`.  For `M1` (`head_dim = 4`,
reshaped query entry `1`) the code produces `2` where the standard scaling
prescribed by the docstring and the specification (`specScaledQuery`)
produces `1/2`. -/
theorem bmha_query_scaling_bug :
    M1.q_h ndata1 0 0 0 = 2 ∧
    specScaledQuery M1 ndata1 0 0 0 = 1 / 2 ∧
    M1.q_h ndata1 0 0 0 ≠ specScaledQuery M1 ndata1 0 0 0 := by
  have h1 : M1.q_h ndata1 0 0 0 = 2 := by
    show transpose3_01 (reshapeToHeads M1.feat_size M1.head_dim
      (M1.q_t ndata1)) 0 0 0 / M1.scaling = 2
    rw [M1_raw_query, M1_scaling]
    norm_num
  have h2 : specScaledQuery M1 ndata1 0 0 0 = 1 / 2 := by
    show transpose3_01 (reshapeToHeads M1.feat_size M1.head_dim
      (M1.q_t ndata1)) 0 0 0 * M1.scaling = 1 / 2
    rw [M1_raw_query, M1_scaling]
    norm_num
  refine ⟨h1, h2, ?_⟩
  rw [h1, h2]
  norm_num

/-- C2: wherever the supplied `attn_mask` is non-zero, the attention
probability after the softmax of lines 208-213 is exactly zero, for every
head `h` and every query row that keeps at least one unmasked key
position. -/
theorem bmha_masked_positions_zero_prob (m : BMHA) (N : ℕ)
    (ndata : ℕ → ℕ → ℕ → ℝ) (ab : Option (ℕ → ℕ → ℕ → ℕ → ℝ))
    (msk : ℕ → ℕ → ℕ → ℝ) (b q k h : ℕ) (hH : h < m.num_heads)
    (hmask : msk b q k ≠ 0) (_hrow : ∃ j, j < N ∧ msk b q j = 0) :
    m.attnProbs N ndata ab (some msk) (b * m.num_heads + h) q k = 0 := by
  have hHpos : 0 < m.num_heads := lt_of_le_of_lt (Nat.zero_le h) hH
  have hdiv : (b * m.num_heads + h) / m.num_heads = b := by
    rw [mul_comm, Nat.mul_add_div hHpos, Nat.div_eq_of_lt hH, add_zero]
  have hmod : (b * m.num_heads + h) % m.num_heads = h := by
    rw [mul_comm b m.num_heads, Nat.mul_add_mod, Nat.mod_eq_of_lt hH]
  have hidx : transpose3_02 (reshapeMergeLast m.num_heads (transpose4_02
      (m.maskedScores ndata ab (some msk)))) (b * m.num_heads + h) q k
      = ⊥ := by
    show m.maskedScores ndata ab (some msk)
      ((b * m.num_heads + h) / m.num_heads) q k
      ((b * m.num_heads + h) % m.num_heads) = ⊥
    rw [hdiv, hmod]
    exact if_pos hmask
  unfold BMHA.attnProbs softmaxDim2
  rw [hidx, expExt_bot, zero_div]

/-- C2 witness: for `M1` with `N = 2` keys, mask `msk1` marks key `0`
invalid while key `1` stays valid, and the post-softmax probability at the
masked position is zero. -/
theorem bmha_masked_positions_zero_prob_witness :
    M1.attnProbs 2 ndata1 none (some msk1) 0 0 0 = 0 :=
  bmha_masked_positions_zero_prob M1 2 ndata1 none msk1 0 0 0 0
    (by norm_num [M1]) (by norm_num [msk1])
    ⟨1, by norm_num, by norm_num [msk1]⟩

/-- Dropout does not depend on the randomness draw when the module is in
evaluation mode or when `p = 0` and the Bernoulli(1) draws keep
everything (as they do almost surely). -/
lemma dropoutT_indep (p : ℝ) (training : Bool)
    (keep1 keep2 : ℕ → ℕ → ℕ → Bool) (x : ℕ → ℕ → ℕ → ℝ)
    (h : training = false ∨
      (p = 0 ∧ (∀ a b c, keep1 a b c = true) ∧
        (∀ a b c, keep2 a b c = true))) :
    dropoutT p training keep1 x = dropoutT p training keep2 x := by
  rcases h with h | ⟨hp, h1, h2⟩
  · subst h
    rfl
  · subst hp
    cases training
    · rfl
    · funext a b c
      simp [dropoutT, h1 a b c, h2 a b c]

/-- C8: with dropout disabled (evaluation mode, or `attn_drop = 0` with
the almost-surely-all-ones Bernoulli draws) and fixed parameters,
`BiasedMultiheadAttention.forward` returns identical `(bsz, N, feat_size)`
outputs across repeated calls on equal inputs: the result does not depend
on the dropout randomness, and nothing else in the pipeline is stateful. -/
theorem bmha_forward_deterministic_without_dropout (m : BMHA) (N : ℕ)
    (ndata : ℕ → ℕ → ℕ → ℝ) (ab : Option (ℕ → ℕ → ℕ → ℕ → ℝ))
    (msk : Option (ℕ → ℕ → ℕ → ℝ)) (training : Bool)
    (keep1 keep2 : ℕ → ℕ → ℕ → Bool)
    (h : training = false ∨
      (m.attn_drop = 0 ∧ (∀ a b c, keep1 a b c = true) ∧
        (∀ a b c, keep2 a b c = true))) :
    m.forward N ndata ab msk training keep1 =
      m.forward N ndata ab msk training keep2 := by
  have hdrop := dropoutT_indep m.attn_drop training keep1 keep2
    (m.attnProbs N ndata ab msk) h
  unfold BMHA.forward BMHA.attnContext
  rw [hdrop]

/-- C8 witness: the end-to-end configuration of the specification
(`feat_size = 8`, `num_heads = 2`, `bsz = 2`, `N = 4`, all-zero
`attn_bias` of shape `(2, 4, 4, 2)`, no mask, `attn_drop = 0`, inference
mode) yields the same output under two opposite dropout draws. -/
theorem bmha_forward_deterministic_without_dropout_witness :
    M8.forward 4 zeroT3 (some zeroT4) none false keepAll =
      M8.forward 4 zeroT3 (some zeroT4) none false keepNone :=
  bmha_forward_deterministic_without_dropout M8 4 zeroT3 (some zeroT4) none
    false keepAll keepNone (Or.inl rfl)

/-- C9: `BiasedMultiheadAttention.forward` never writes to the storages of
its inputs: in the storage footprint of lines 184-221, every in-place
operation (`+=`, `*=`, masked `-inf` assignment) targets the storage
allocated by `th.bmm` at line 192, never storages `0` (`ndata`), `1`
(`attn_bias`) or `2` (`attn_mask`), so the inputs hold their original
values after the call, whichever optional branches run. -/
theorem bmha_forward_no_input_mutation (hasBias hasMask : Bool) :
    0 ∉ (bmhaStorageTrace hasBias hasMask).written ∧
    1 ∉ (bmhaStorageTrace hasBias hasMask).written ∧
    2 ∉ (bmhaStorageTrace hasBias hasMask).written := by
  cases hasBias <;> cases hasMask <;> exact ⟨by decide, by decide, by decide⟩
